import Mathlib

/-!
Shallow embedding of the FastAPI blog application (src/blog/routers/blogs.py,
src/blog/routers/users.py, src/blog/schemas.py, src/blog/hashing.py).  The
relational store is modelled as an explicit state value threaded through each
request handler; the SQLAlchemy query primitives the handlers call are
modelled as list operations; Python's dynamic typing shows up as explicit sum
types where a value can have more than one runtime type.
-/

/-- Decimal digit parsing helper: a non-empty all-digit character list read as
a natural number, anything else rejected. -/
def parseNatChars (l : List Char) : Option Nat :=
  if l.isEmpty then none
  else if l.all Char.isDigit then
    some (l.foldl (fun acc c => acc * 10 + (c.toNat - 48)) 0)
  else none

/-- Integer literal parsing over characters: an optional leading minus sign
followed by decimal digits. -/
def parseIntChars : List Char → Option Int
  | '-' :: rest => (parseNatChars rest).map (fun n => -(n : Int))
  | l => (parseNatChars l).map (fun n => (n : Int))

/-- FastAPI validation of a path parameter declared with an int annotation
(pydantic integer parsing of the raw path segment): the slice relevant to this
app is an optional sign followed by decimal digits; any other text is rejected
with a validation error. -/
def parseIntParam (s : String) : Option Int :=
  parseIntChars s.data

/-- SQLite text-to-integer affinity: when an INTEGER column is compared with a
text operand, the text is converted to an integer when it is an integer
literal; the slice relevant to this app is an optional sign followed by
decimal digits. -/
def sqliteTextAffinity (s : String) : Option Int :=
  parseIntChars s.data

/-- Comparison of an INTEGER column value with a text operand under SQLite
affinity: equal exactly when the text converts to the same integer. -/
def sqliteIntTextEq (col : Int) (txt : String) : Bool :=
  match sqliteTextAffinity txt with
  | some n => col == n
  | none => false

/-- Modelled from the spec: the password hashing primitive behind
blog/hashing.py is the external pwdlib library (PasswordHash.recommended()),
not code of this repository.  Spec section 4.1 describes it as a salted
one-way digest: same plaintext hashed twice yields different strings, and
verify recovers the parameters embedded in the digest.  The model makes the
salt an explicit parameter (standing for the library's internal randomness),
embeds it in the digest in unary, and treats the keyed digest function as
injective in the plaintext, the idealisation the spec's contract states. -/
def hashWith (salt : Nat) (password : String) : String :=
  "$argon2id$" ++ String.mk (List.replicate salt 'x') ++ "$" ++ password

/-- Modelled from the spec: verification against a digest produced by
hashWith.  It succeeds exactly when some salt no longer than the digest
reproduces the digest from the supplied plaintext. -/
def pwVerify (plain digest : String) : Bool :=
  decide (∃ s : Fin (digest.length + 1), digest = hashWith s.val plain)

namespace Hash

/-- Wrapper from blog/hashing.py: get_password_hash delegates to the library
hasher; the salt parameter models the library's internal salt choice. -/
def get_password_hash (salt : Nat) (password : String) : String :=
  hashWith salt password

/-- Wrapper from blog/hashing.py: verify_password delegates to the library
verifier. -/
def verify_password (plain_password hashed_password : String) : Bool :=
  pwVerify plain_password hashed_password

end Hash

/-- Schema BlogBase from blog/schemas.py: title and body strings.  The schema
Blog adds only orm_mode configuration, so requests validated against
schemas.Blog carry the same two fields. -/
structure BlogBase where
  title : String
  body : String
deriving DecidableEq

/-- Schema User from blog/schemas.py: the user-creation request shape. -/
structure UserCreate where
  name : String
  email : String
  password : String
deriving DecidableEq

/-- Modelled from the spec: blog/models.py is not under src/.  Spec section 3
gives the Blog record: auto-assigned integer id, title, body, and a nullable
creator_id referencing a User. -/
structure BlogRow where
  id : Int
  title : String
  body : String
  creator_id : Option Int
deriving DecidableEq

/-- Modelled from the spec: blog/models.py is not under src/.  Spec section 3
gives the User record: auto-assigned integer id, name, email and the stored
password hash. -/
structure UserRow where
  id : Int
  name : String
  email : String
  password : String
deriving DecidableEq

/-- Database state: the two tables plus the next auto-assigned primary key of
each, modelling SQLite integer primary key assignment. -/
structure DB where
  blogs : List BlogRow
  users : List UserRow
  nextBlogId : Int
  nextUserId : Int
deriving DecidableEq

/-- Empty database, the state right after models.Base.metadata.create_all. -/
def emptyDB : DB :=
  { blogs := [], users := [], nextBlogId := 1, nextUserId := 1 }

mutual

/-- Response schema ShowUser from blog/schemas.py: name, email and the list of
the user's blogs.  No password field exists in this shape. -/
inductive ShowUserJson : Type where
  | mk (name : String) (email : String) (blogs : List ShowBlogJson)

/-- Response schema ShowBlog from blog/schemas.py: title, body and the
optional creator serialized as a ShowUser. -/
inductive ShowBlogJson : Type where
  | mk (title : String) (body : String) (creator : Option ShowUserJson)

end

/-- View of a user row as the ShowUser schema reads it: pydantic orm_mode
reads only the attributes the schema declares, so the password column is never
consulted. -/
structure UserView where
  id : Int
  name : String
  email : String
deriving DecidableEq

/-- Projection of a stored user row to the attributes the output schemas
read. -/
def userView (u : UserRow) : UserView :=
  { id := u.id, name := u.name, email := u.email }

/-- Serialization of a blog row through the ShowBlog response schema.  The
creator relationship (spec section 3: navigable via creator_id) is followed
when creator_id is set, embedding a ShowUser whose blogs are again serialized
through ShowBlog; the fuel bounds that recursion, mirroring the fact that the
mutually recursive pydantic schemas can only terminate when the chain of
creator links bottoms out. -/
def serializeShowBlog : Nat → List BlogRow → List UserView → BlogRow → Option ShowBlogJson
  | 0, _, _, _ => none
  | fuel + 1, blogs, users, b =>
    match b.creator_id with
    | none => some (ShowBlogJson.mk b.title b.body none)
    | some uid =>
      match users.find? (fun u => u.id == uid) with
      | none => some (ShowBlogJson.mk b.title b.body none)
      | some u =>
        match (blogs.filter (fun bb => bb.creator_id == some u.id)).mapM
            (fun bb => serializeShowBlog fuel blogs users bb) with
        | none => none
        | some bs =>
          some (ShowBlogJson.mk b.title b.body (some (ShowUserJson.mk u.name u.email bs)))

/-- Serialization of a user row through the ShowUser response schema: name,
email, and the user's blogs (the rows whose creator_id references the user),
each serialized through ShowBlog. -/
def serializeShowUser (fuel : Nat) (blogs : List BlogRow) (users : List UserView)
    (u : UserView) : Option ShowUserJson :=
  match (blogs.filter (fun b => b.creator_id == some u.id)).mapM
      (fun b => serializeShowBlog fuel blogs users b) with
  | none => none
  | some bs => some (ShowUserJson.mk u.name u.email bs)

/-- Error raised to the HTTP layer by a handler, carrying the status code and
detail message passed to HTTPException. -/
structure HTTPException where
  status_code : Nat
  detail : String
deriving DecidableEq

/-- Runtime type of the values argument reaching SQLAlchemy's Query.update.
The ORM requires a mapping from column names to values; blogs.py passes
request.body, a plain string, so the embedding records which runtime type the
argument has. -/
inductive UpdateValues where
  | mapping (kvs : List (String × String))
  | pyStr (value : String)
deriving DecidableEq

/-- Exception escaping from the ORM layer (propagated by FastAPI as a 500
response, not an HTTPException). -/
inductive OrmFailure where
  | strHasNoItems
  | unconsumedColumn (name : String)
deriving DecidableEq

/-- Application of a column-to-value mapping to one row; a key that is not a
column of the Blog table raises. -/
def applyColumns (kvs : List (String × String)) (b : BlogRow) : Except OrmFailure BlogRow :=
  kvs.foldl
    (fun acc kv => acc.bind (fun row =>
      if kv.fst = "title" then Except.ok { row with title := kv.snd }
      else if kv.fst = "body" then Except.ok { row with body := kv.snd }
      else Except.error (OrmFailure.unconsumedColumn kv.fst)))
    (Except.ok b)

/-- SQLAlchemy Query.update: applies a mapping of column names to values to
every row selected by the query's filter.  The values argument must be a
mapping: the ORM iterates its items, so a plain string raises at run time
(str has no items attribute) before any row is written. -/
def queryUpdate (query : BlogRow → Bool) (values : UpdateValues)
    (blogs : List BlogRow) : Except OrmFailure (List BlogRow) :=
  match values with
  | UpdateValues.pyStr _ => Except.error OrmFailure.strHasNoItems
  | UpdateValues.mapping kvs =>
    blogs.mapM (fun b => if query b then applyColumns kvs b else Except.ok b)

/-- Result of the DELETE handler: the HTTPException raised on a missing id, or
the value the handler returns on success. -/
inductive DeleteOutcome where
  | notFound (e : HTTPException)
  | done (body : String)
deriving DecidableEq

/-- Result of the PUT handler: the HTTPException raised on a missing id, an
exception escaping from the ORM, or the value returned on success. -/
inductive UpdateOutcome where
  | notFound (e : HTTPException)
  | ormError (e : OrmFailure)
  | updated (body : String)
deriving DecidableEq

/-- Discriminator for the not-found outcome of the PUT handler. -/
def UpdateOutcome.isNotFound : UpdateOutcome → Bool
  | UpdateOutcome.notFound _ => true
  | _ => false

namespace Blogs

/-- Declared success status of POST /blog (status.HTTP_201_CREATED). -/
def create_status : Nat := 201

/-- Declared success status of GET /blog/{id}. -/
def show_status : Nat := 200

/-- Declared success status of DELETE /blog/{id} (status.HTTP_204_NO_CONTENT). -/
def destory_status : Nat := 204

/-- Declared success status of PUT /blog/{id} (status.HTTP_202_ACCEPTED). -/
def update_status : Nat := 202

/-- Handler create from blogs.py: inserts a Blog row built from the request's
title and body (creator_id is not set, so it stays null), commits, refreshes,
and returns the stored row. -/
def create (request : BlogBase) (db : DB) : BlogRow × DB :=
  let new_blog : BlogRow :=
    { id := db.nextBlogId, title := request.title, body := request.body, creator_id := none }
  (new_blog, { db with blogs := db.blogs ++ [new_blog], nextBlogId := db.nextBlogId + 1 })

/-- Handler show from blogs.py: the id path parameter is declared int; the
first row with that id is returned, and a missing id raises a 404
HTTPException with the message written in the source. -/
def show_blog (id : Int) (db : DB) : Except HTTPException BlogRow :=
  match db.blogs.find? (fun b => b.id == id) with
  | none =>
    Except.error
      { status_code := 404, detail := "Blog with the id " ++ toString id ++ " is not avaliable" }
  | some blog => Except.ok blog

/-- Handler destory from blogs.py: the id path parameter carries no type
annotation, so the raw path segment (a string) reaches the query, where the
integer id column is compared to it under SQLite affinity.  A missing id
raises a 404 HTTPException; otherwise every selected row is deleted, the
session commits, and the handler returns the string Done. -/
def destory (id : String) (db : DB) : DeleteOutcome × DB :=
  let query := fun (b : BlogRow) => sqliteIntTextEq b.id id
  match db.blogs.find? query with
  | none =>
    (DeleteOutcome.notFound { status_code := 404, detail := "Blog with id " ++ id ++ " not found" },
      db)
  | some _ =>
    (DeleteOutcome.done "Done", { db with blogs := db.blogs.filter (fun b => !(query b)) })

/-- Handler update from blogs.py: the id path parameter carries no type
annotation, so the raw path segment (a string) reaches the query.  A missing
id raises a 404 HTTPException; otherwise the handler calls
blog.update(request.body), passing the body string itself (runtime type str)
as the values argument of Query.update.  Only when that call returns does the
session commit and the handler return its success message. -/
def update (id : String) (request : BlogBase) (db : DB) : UpdateOutcome × DB :=
  let query := fun (b : BlogRow) => sqliteIntTextEq b.id id
  match db.blogs.find? query with
  | none =>
    (UpdateOutcome.notFound { status_code := 404, detail := "Blog with id " ++ id ++ " not found" },
      db)
  | some _ =>
    match queryUpdate query (UpdateValues.pyStr request.body) db.blogs with
    | Except.error e => (UpdateOutcome.ormError e, db)
    | Except.ok blogs2 =>
      (UpdateOutcome.updated "Updated successfully", { db with blogs := blogs2 })

end Blogs

namespace Users

/-- Handler create_user from users.py: hashes the request password, inserts a
User row with name, email and the hash, commits, refreshes, and returns the
stored row (the response is then shaped by the ShowUser response_model).  The
salt parameter models the library hasher's internal randomness. -/
def create_user (salt : Nat) (request : UserCreate) (db : DB) : UserRow × DB :=
  let hashedPassword := Hash.get_password_hash salt request.password
  let new_user : UserRow :=
    { id := db.nextUserId, name := request.name, email := request.email,
      password := hashedPassword }
  (new_user, { db with users := db.users ++ [new_user], nextUserId := db.nextUserId + 1 })

/-- Handler get_user from users.py: the id path parameter is declared int; a
missing id raises a 404 HTTPException with the message written in the
source. -/
def get_user (id : Int) (db : DB) : Except HTTPException UserRow :=
  match db.users.find? (fun u => u.id == id) with
  | none =>
    Except.error
      { status_code := 404, detail := "User with the id " ++ toString id ++ " is not available" }
  | some user => Except.ok user

/-- Response of POST /user as serialized by the ShowUser response_model: the
created row viewed through the schema, with the user's blogs embedded. -/
def create_user_response (salt fuel : Nat) (request : UserCreate) (db : DB) :
    Option ShowUserJson :=
  let r := create_user salt request db
  serializeShowUser fuel r.2.blogs (r.2.users.map userView) (userView r.1)

end Users

/-- Dispatch result of the routing layer for one request: FastAPI either
rejects the raw path parameter with a validation error before the handler
runs, or hands the request to the handler. -/
inductive RouteResult (α : Type) where
  | validationError (status_code : Nat)
  | handled (response : α)
deriving DecidableEq

namespace Routes

/-- Route GET /blog/{id}: the handler declares id as int, so FastAPI parses
the raw segment first and rejects non-integers with a 422 validation
error. -/
def getBlogRoute (raw : String) (db : DB) : RouteResult (Except HTTPException BlogRow) :=
  match parseIntParam raw with
  | none => RouteResult.validationError 422
  | some i => RouteResult.handled (Blogs.show_blog i db)

/-- Route GET /user/{id}: the handler declares id as int, so FastAPI parses
the raw segment first and rejects non-integers with a 422 validation
error. -/
def getUserRoute (raw : String) (db : DB) : RouteResult (Except HTTPException UserRow) :=
  match parseIntParam raw with
  | none => RouteResult.validationError 422
  | some i => RouteResult.handled (Users.get_user i db)

/-- Route DELETE /blog/{id}: the handler's id parameter is unannotated, so the
raw path segment is passed to the handler as a string with no validation. -/
def deleteBlogRoute (raw : String) (db : DB) : RouteResult (DeleteOutcome × DB) :=
  RouteResult.handled (Blogs.destory raw db)

/-- Route PUT /blog/{id}: the handler's id parameter is unannotated, so the
raw path segment is passed to the handler as a string with no validation. -/
def putBlogRoute (raw : String) (request : BlogBase) (db : DB) :
    RouteResult (UpdateOutcome × DB) :=
  RouteResult.handled (Blogs.update raw request db)

end Routes

/-- One API request, as far as it affects the stored state. -/
inductive Op where
  | createBlog (request : BlogBase)
  | listBlogs
  | showBlog (id : Int)
  | deleteBlog (id : String)
  | updateBlog (id : String) (request : BlogBase)
  | createUser (salt : Nat) (request : UserCreate)
  | getUser (id : Int)

/-- State transition of one API request: read-only requests leave the state
unchanged, the others leave whatever state their handler committed. -/
def applyOp (op : Op) (db : DB) : DB :=
  match op with
  | Op.createBlog r => (Blogs.create r db).2
  | Op.listBlogs => db
  | Op.showBlog _ => db
  | Op.deleteBlog i => (Blogs.destory i db).2
  | Op.updateBlog i r => (Blogs.update i r db).2
  | Op.createUser s r => (Users.create_user s r db).2
  | Op.getUser _ => db

/-- State after a sequence of API requests. -/
def runOps (ops : List Op) (db : DB) : DB :=
  ops.foldl (fun d op => applyOp op d) db

/-- States the API can reach from the empty database. -/
def Reachable (db : DB) : Prop :=
  ∃ ops : List Op, runOps ops emptyDB = db

/-- Invariant: no stored blog has its creator reference set. -/
def NoCreator (db : DB) : Prop :=
  ∀ b ∈ db.blogs, b.creator_id = none

/-- Invariant: every stored blog id is below the next auto-assigned id. -/
def IdsFresh (db : DB) : Prop :=
  ∀ b ∈ db.blogs, b.id < db.nextBlogId

/-- Invariant: stored blog ids are pairwise distinct. -/
def IdsNodup (db : DB) : Prop :=
  db.blogs.Pairwise (fun a b => a.id ≠ b.id)

/-- Conjunction of the state invariants the API maintains. -/
def StateInv (db : DB) : Prop :=
  NoCreator db ∧ IdsFresh db ∧ IdsNodup db

/-- Concrete state holding one blog row, used to instantiate theorems. -/
def oneBlogDB : DB :=
  { blogs := [{ id := 1, title := "t", body := "b", creator_id := none }],
    users := [], nextBlogId := 2, nextUserId := 1 }

/-! ## Helper lemmas -/

/-- The PUT handler never commits a change: on a missing id it raises before
touching rows, and on a found id the ORM update call raises because its
values argument is the plain body string, so the commit is never reached. -/
theorem update_state_eq (id : String) (r : BlogBase) (db : DB) :
    (Blogs.update id r db).2 = db := by
  unfold Blogs.update
  cases hf : db.blogs.find? (fun b => sqliteIntTextEq b.id id) <;>
    simp [hf, queryUpdate]

/-- Character-level shape of a digest produced by hashWith. -/
theorem hashWith_data (salt : Nat) (p : String) :
    (hashWith salt p).data =
      "$argon2id$".data ++ (List.replicate salt 'x' ++ '$' :: p.data) := by
  simp [hashWith, String.data_append]

/-- Unary salt followed by a separator determines the salt and the tail. -/
theorem rep_sep_inj :
    ∀ (s t : Nat) (l m : List Char),
      List.replicate s 'x' ++ '$' :: l = List.replicate t 'x' ++ '$' :: m →
      s = t ∧ l = m := by
  intro s
  induction s with
  | zero =>
    intro t l m h
    cases t with
    | zero => simpa using h
    | succ t => simp [List.replicate_succ] at h
  | succ s ih =>
    intro t l m h
    cases t with
    | zero => simp [List.replicate_succ] at h
    | succ t =>
      simp only [List.replicate_succ, List.cons_append, List.cons.injEq, true_and] at h
      obtain ⟨h1, h2⟩ := ih t l m h
      exact ⟨by rw [h1], h2⟩

/-- The modelled digest determines the salt and the plaintext. -/
theorem hashWith_inj (s t : Nat) (p q : String) (h : hashWith s p = hashWith t q) :
    s = t ∧ p = q := by
  have hd := congrArg String.data h
  rw [hashWith_data, hashWith_data] at hd
  obtain ⟨h1, h2⟩ := rep_sep_inj s t p.data q.data (List.append_cancel_left hd)
  exact ⟨h1, String.ext h2⟩

/-- Length of a modelled digest. -/
theorem hashWith_length (s : Nat) (p : String) :
    (hashWith s p).length = 11 + s + p.length := by
  have h := congrArg List.length (hashWith_data s p)
  simp only [List.length_append, List.length_replicate, List.length_cons,
    List.length_nil] at h
  show (hashWith s p).data.length = 11 + s + p.data.length
  omega

/-- A digest is never the plaintext itself. -/
theorem hashWith_ne_self (s : Nat) (p : String) : hashWith s p ≠ p := by
  intro h
  have := congrArg String.length h
  rw [hashWith_length] at this
  omega

/-- Verification succeeds on the digest of the same plaintext. -/
theorem pwVerify_hashWith (s : Nat) (p : String) : pwVerify p (hashWith s p) = true := by
  have hb : s < (hashWith s p).length + 1 := by rw [hashWith_length]; omega
  exact decide_eq_true ⟨⟨s, hb⟩, rfl⟩

/-- Verification fails on the digest of a different plaintext. -/
theorem pwVerify_ne (p q : String) (s : Nat) (h : q ≠ p) :
    pwVerify q (hashWith s p) = false := by
  refine decide_eq_false ?_
  rintro ⟨⟨t, _⟩, heq⟩
  exact h (hashWith_inj s t p q heq).2.symm

/-- The empty database satisfies the state invariants. -/
theorem stateInv_empty : StateInv emptyDB := by
  refine ⟨?_, ?_, ?_⟩ <;> simp [NoCreator, IdsFresh, IdsNodup, emptyDB]

/-- Every API request preserves the state invariants. -/
theorem stateInv_applyOp (op : Op) (db : DB) (h : StateInv db) :
    StateInv (applyOp op db) := by
  obtain ⟨hc, hf, hn⟩ := h
  cases op with
  | createBlog r =>
    refine ⟨?_, ?_, ?_⟩
    · intro b hb
      rcases List.mem_append.mp hb with hb1 | hb2
      · exact hc b hb1
      · simp only [List.mem_singleton] at hb2
        rw [hb2]
    · intro b hb
      show b.id < db.nextBlogId + 1
      rcases List.mem_append.mp hb with hb1 | hb2
      · have := hf b hb1
        omega
      · simp only [List.mem_singleton] at hb2
        rw [hb2]
        show db.nextBlogId < db.nextBlogId + 1
        omega
    · refine List.pairwise_append.mpr ⟨hn, List.pairwise_singleton _ _, ?_⟩
      intro a ha b hb
      simp only [List.mem_singleton] at hb
      rw [hb]
      show a.id ≠ db.nextBlogId
      have := hf a ha
      omega
  | listBlogs => exact ⟨hc, hf, hn⟩
  | showBlog i => exact ⟨hc, hf, hn⟩
  | deleteBlog i =>
    simp only [applyOp, Blogs.destory]
    cases hfind : db.blogs.find? (fun b => sqliteIntTextEq b.id i) with
    | none => exact ⟨hc, hf, hn⟩
    | some x =>
      refine ⟨?_, ?_, ?_⟩
      · intro b hb
        exact hc b (List.mem_filter.mp hb).1
      · intro b hb
        exact hf b (List.mem_filter.mp hb).1
      · exact List.Pairwise.sublist (List.filter_sublist _) hn
  | updateBlog i r =>
    simpa only [applyOp, update_state_eq] using ⟨hc, hf, hn⟩
  | createUser s r => exact ⟨hc, hf, hn⟩
  | getUser i => exact ⟨hc, hf, hn⟩

/-- Running any request sequence from an invariant state keeps the
invariants. -/
theorem runOps_stateInv (ops : List Op) (db : DB) (h : StateInv db) :
    StateInv (runOps ops db) := by
  induction ops generalizing db with
  | nil => simpa [runOps] using h
  | cons op rest ih =>
    have : runOps (op :: rest) db = runOps rest (applyOp op db) := by
      simp [runOps]
    rw [this]
    exact ih (applyOp op db) (stateInv_applyOp op db h)

/-- Every reachable state satisfies the invariants. -/
theorem reachable_stateInv (db : DB) (h : Reachable db) : StateInv db := by
  obtain ⟨ops, rfl⟩ := h
  exact runOps_stateInv ops emptyDB stateInv_empty

/-! ## Claims -/

/-- C1: evaluation of the update endpoint at a stored blog.  The claim says
PUT replaces the body and keeps the title; on the code, the values argument
handed to Query.update is the plain body string, the ORM raises before any
row is written, the state is unchanged, and a subsequent GET still returns
the original body. -/
theorem claim_C1_update_raises :
    Blogs.update "1" { title := "t2", body := "b2" } oneBlogDB =
      (UpdateOutcome.ormError OrmFailure.strHasNoItems, oneBlogDB) ∧
    Blogs.show_blog 1 (Blogs.update "1" { title := "t2", body := "b2" } oneBlogDB).2 =
      Except.ok { id := 1, title := "t", body := "b", creator_id := none } := by
  exact ⟨by decide, rfl⟩

/-- C2 counterexample: with no stored blogs, GET on id 1 produces the 404
detail the source spells (avaliable), which is not the exact message the
claim states (available). -/
theorem claim_C2_message_cex :
    Blogs.show_blog 1 emptyDB =
      Except.error { status_code := 404, detail := "Blog with the id 1 is not avaliable" } ∧
    "Blog with the id 1 is not avaliable" ≠ "Blog with the id 1 is not available" := by
  exact ⟨rfl, by decide⟩

/-- C2 (amended): for every id matching no stored blog, GET fails with a 404
whose detail is exactly the source's message (with its spelling, avaliable),
and PUT and DELETE fail with a 404 whose detail is exactly the source's
message, which matches the pattern not found. -/
theorem claim_C2_amended (db : DB) (i : Int) (idStr : String) (r : BlogBase)
    (hg : ∀ b ∈ db.blogs, b.id ≠ i)
    (hs : ∀ b ∈ db.blogs, sqliteIntTextEq b.id idStr = false) :
    Blogs.show_blog i db =
      Except.error
        { status_code := 404,
          detail := "Blog with the id " ++ toString i ++ " is not avaliable" } ∧
    (Blogs.destory idStr db).1 =
      DeleteOutcome.notFound
        { status_code := 404,
          detail := "Blog with id " ++ idStr ++ " not found" } ∧
    (Blogs.update idStr r db).1 =
      UpdateOutcome.notFound
        { status_code := 404,
          detail := "Blog with id " ++ idStr ++ " not found" } := by
  have hfg : db.blogs.find? (fun b => b.id == i) = none := by
    rw [List.find?_eq_none]
    intro b hb
    simpa using hg b hb
  have hfs : db.blogs.find? (fun b => sqliteIntTextEq b.id idStr) = none := by
    rw [List.find?_eq_none]
    intro b hb
    simp [hs b hb]
  refine ⟨?_, ?_, ?_⟩ <;> simp [Blogs.show_blog, Blogs.destory, Blogs.update, hfg, hfs]

/-- C2 witness: the amended statement at id 1 and raw segment x over the
empty store. -/
theorem claim_C2_amended_witness :
    Blogs.show_blog 1 emptyDB =
      Except.error { status_code := 404, detail := "Blog with the id 1 is not avaliable" } ∧
    (Blogs.destory "x" emptyDB).1 =
      DeleteOutcome.notFound { status_code := 404, detail := "Blog with id x not found" } ∧
    (Blogs.update "x" { title := "a", body := "b" } emptyDB).1 =
      UpdateOutcome.notFound { status_code := 404, detail := "Blog with id x not found" } :=
  claim_C2_amended emptyDB 1 "x" { title := "a", body := "b" }
    (by intro b hb; simp [emptyDB] at hb) (by intro b hb; simp [emptyDB] at hb)

/-- C3: the update operation is atomic: either the update is committed and
every selected row shows the new body to subsequent reads, or the stored
state is exactly the pre-call state; in particular a NotFound failure changes
no stored record.  On this code the post-state always equals the pre-state,
because the ORM update call raises before the commit on the found path. -/
theorem claim_C3_atomic (db : DB) (idStr : String) (r : BlogBase) :
    ((Blogs.update idStr r db).2 = db ∨
      ((Blogs.update idStr r db).1 = UpdateOutcome.updated "Updated successfully" ∧
        ∀ b ∈ (Blogs.update idStr r db).2.blogs,
          sqliteIntTextEq b.id idStr = true → b.body = r.body)) ∧
    ((Blogs.update idStr r db).1.isNotFound = true → (Blogs.update idStr r db).2 = db) :=
  ⟨Or.inl (update_state_eq idStr r db), fun _ => update_state_eq idStr r db⟩

/-- C4: round-trip: creating a blog from any valid title and body and then
getting the returned record's id yields exactly the stored record, whose
title and body are the submitted ones.  Reachability supplies the invariant
that the auto-assigned id is fresh. -/
theorem claim_C4_roundtrip (db : DB) (req : BlogBase) (h : Reachable db) :
    (Blogs.create req db).1.title = req.title ∧
    (Blogs.create req db).1.body = req.body ∧
    Blogs.show_blog (Blogs.create req db).1.id (Blogs.create req db).2 =
      Except.ok (Blogs.create req db).1 := by
  obtain ⟨-, hf, -⟩ := reachable_stateInv db h
  refine ⟨rfl, rfl, ?_⟩
  have hnone : db.blogs.find? (fun b => b.id == db.nextBlogId) = none := by
    rw [List.find?_eq_none]
    intro b hb
    have := hf b hb
    simp only [beq_iff_eq]
    omega
  simp [Blogs.create, Blogs.show_blog, List.find?_append, hnone]

/-- C4 witness: the round-trip at a concrete request over the empty store. -/
theorem claim_C4_roundtrip_witness :
    (Blogs.create { title := "t", body := "b" } emptyDB).1.title = "t" ∧
    (Blogs.create { title := "t", body := "b" } emptyDB).1.body = "b" ∧
    Blogs.show_blog (Blogs.create { title := "t", body := "b" } emptyDB).1.id
        (Blogs.create { title := "t", body := "b" } emptyDB).2 =
      Except.ok (Blogs.create { title := "t", body := "b" } emptyDB).1 :=
  claim_C4_roundtrip emptyDB { title := "t", body := "b" } ⟨[], rfl⟩

/-- C5: deleting a stored blog succeeds with the handler's Done value,
removes exactly that record (it is gone, every other record stays), and a
subsequent GET on its id fails with a 404. -/
theorem claim_C5_delete (db : DB) (idStr : String) (n : Int) (b : BlogRow)
    (h : Reachable db) (hp : sqliteTextAffinity idStr = some n)
    (hb : b ∈ db.blogs) (hid : b.id = n) :
    (Blogs.destory idStr db).1 = DeleteOutcome.done "Done" ∧
    b ∉ (Blogs.destory idStr db).2.blogs ∧
    (∀ b2 ∈ db.blogs, b2 ≠ b → b2 ∈ (Blogs.destory idStr db).2.blogs) ∧
    (∃ e : HTTPException,
      Blogs.show_blog n (Blogs.destory idStr db).2 = Except.error e ∧
      e.status_code = 404) := by
  obtain ⟨-, -, hn⟩ := reachable_stateInv db h
  have hq : ∀ bb : BlogRow, sqliteIntTextEq bb.id idStr = (bb.id == n) := by
    intro bb
    simp [sqliteIntTextEq, hp]
  have hqb : sqliteIntTextEq b.id idStr = true := by
    rw [hq, hid]
    simp
  cases hfind : db.blogs.find? (fun bb => sqliteIntTextEq bb.id idStr) with
  | none =>
    exact absurd hqb (by simpa using List.find?_eq_none.mp hfind b hb)
  | some x =>
    have hdes : Blogs.destory idStr db =
        (DeleteOutcome.done "Done",
          { db with
            blogs := db.blogs.filter (fun bb => !(sqliteIntTextEq bb.id idStr)) }) := by
      simp [Blogs.destory, hfind]
    rw [hdes]
    refine ⟨rfl, ?_, ?_, ?_⟩
    · intro hmem
      have hneg := (List.mem_filter.mp hmem).2
      rw [hqb] at hneg
      simp at hneg
    · intro b2 hb2 hne
      refine List.mem_filter.mpr ⟨hb2, ?_⟩
      have hne2 : b2.id ≠ b.id := hn.forall (fun x y hxy => Ne.symm hxy) hb2 hb hne
      rw [hq]
      simpa using fun hEq => hne2 (hEq.trans hid.symm)
    · have hnone : (db.blogs.filter
          (fun bb => !(sqliteIntTextEq bb.id idStr))).find? (fun bb => bb.id == n) = none := by
        rw [List.find?_eq_none]
        intro x2 hx2
        have hxf := (List.mem_filter.mp hx2).2
        rw [hq x2] at hxf
        simpa using hxf
      refine
        ⟨{ status_code := 404,
           detail := "Blog with the id " ++ toString n ++ " is not avaliable" }, ?_, rfl⟩
      simp [Blogs.show_blog, hnone]

/-- C5 witness: deleting the one stored blog of a reachable state. -/
theorem claim_C5_delete_witness :
    (Blogs.destory "1" oneBlogDB).1 = DeleteOutcome.done "Done" ∧
    ({ id := 1, title := "t", body := "b", creator_id := none } : BlogRow) ∉
      (Blogs.destory "1" oneBlogDB).2.blogs ∧
    (∀ b2 ∈ oneBlogDB.blogs,
      b2 ≠ ({ id := 1, title := "t", body := "b", creator_id := none } : BlogRow) →
      b2 ∈ (Blogs.destory "1" oneBlogDB).2.blogs) ∧
    (∃ e : HTTPException,
      Blogs.show_blog 1 (Blogs.destory "1" oneBlogDB).2 = Except.error e ∧
      e.status_code = 404) :=
  claim_C5_delete oneBlogDB "1" 1
    { id := 1, title := "t", body := "b", creator_id := none }
    ⟨[Op.createBlog { title := "t", body := "b" }], by decide⟩
    (by decide) (by decide) rfl

/-- C6: the response of POST /user is the ShowUser shape built from the
request's name and email with the user's (empty) blog list: it contains
neither the plaintext password nor the stored hash, and it is unchanged when
the password is replaced by any other value. -/
theorem claim_C6_no_password (salt fuel : Nat) (req : UserCreate) (db : DB)
    (h : Reachable db) :
    Users.create_user_response salt fuel req db =
      some (ShowUserJson.mk req.name req.email []) ∧
    Users.create_user_response salt fuel
        { name := req.name, email := req.email, password := "other" } db =
      Users.create_user_response salt fuel req db := by
  obtain ⟨hc, -, -⟩ := reachable_stateInv db h
  have hfil : ∀ v : Int, db.blogs.filter (fun b => b.creator_id == some v) = [] := by
    intro v
    rw [List.filter_eq_nil_iff]
    intro b hb
    simp [hc b hb]
  have key : ∀ r2 : UserCreate, Users.create_user_response salt fuel r2 db =
      some (ShowUserJson.mk r2.name r2.email []) := by
    intro r2
    simp only [Users.create_user_response, Users.create_user, serializeShowUser,
      userView, hfil]
    rfl
  simp [key]

/-- C6 witness: a concrete user creation over the empty store. -/
theorem claim_C6_no_password_witness :
    Users.create_user_response 0 1 { name := "n", email := "e", password := "p" } emptyDB =
      some (ShowUserJson.mk "n" "e" []) ∧
    Users.create_user_response 0 1 { name := "n", email := "e", password := "other" } emptyDB =
      Users.create_user_response 0 1 { name := "n", email := "e", password := "p" } emptyDB :=
  claim_C6_no_password 0 1 { name := "n", email := "e", password := "p" } emptyDB ⟨[], rfl⟩

/-- C7: properties of the modelled password hasher: a digest never equals a
non-empty plaintext, verification succeeds on the digest's own plaintext and
fails on any other, and two hashes of the same plaintext under different
salts are different strings that both verify. -/
theorem claim_C7_hasher (p p2 : String) (s s2 : Nat)
    (hp : p ≠ "") (hne : p2 ≠ p) (hs : s ≠ s2) :
    Hash.get_password_hash s p ≠ p ∧
    Hash.verify_password p (Hash.get_password_hash s p) = true ∧
    Hash.verify_password p2 (Hash.get_password_hash s p) = false ∧
    Hash.get_password_hash s p ≠ Hash.get_password_hash s2 p ∧
    Hash.verify_password p (Hash.get_password_hash s2 p) = true := by
  refine ⟨hashWith_ne_self s p, pwVerify_hashWith s p, pwVerify_ne p p2 s hne, ?_,
    pwVerify_hashWith s2 p⟩
  intro hEq
  exact hs (hashWith_inj s s2 p p hEq).1

/-- C7 witness: the hasher contract at concrete plaintexts and salts. -/
theorem claim_C7_hasher_witness :
    Hash.get_password_hash 0 "a" ≠ "a" ∧
    Hash.verify_password "a" (Hash.get_password_hash 0 "a") = true ∧
    Hash.verify_password "b" (Hash.get_password_hash 0 "a") = false ∧
    Hash.get_password_hash 0 "a" ≠ Hash.get_password_hash 1 "a" ∧
    Hash.verify_password "a" (Hash.get_password_hash 1 "a") = true :=
  claim_C7_hasher "a" "b" 0 1 (by decide) (by decide) (by decide)

/-- C8 counterexample: a successful DELETE returns the handler value Done,
which is not an empty body. -/
theorem claim_C8_body_cex :
    (Blogs.destory "1" oneBlogDB).1 = DeleteOutcome.done "Done" ∧ "Done" ≠ "" := by
  exact ⟨by decide, by decide⟩

/-- C8 (amended): every successful DELETE has the declared status 204, but
the handler returns the string Done as its body rather than no body. -/
theorem claim_C8_amended (db : DB) (idStr : String) (out : String)
    (h : (Blogs.destory idStr db).1 = DeleteOutcome.done out) :
    Blogs.destory_status = 204 ∧ out = "Done" := by
  refine ⟨rfl, ?_⟩
  simp only [Blogs.destory] at h
  cases hf : db.blogs.find? (fun b => sqliteIntTextEq b.id idStr) with
  | none => rw [hf] at h; simp at h
  | some x => rw [hf] at h; simpa using h.symm

/-- C8 witness: the amended statement at a concrete successful delete. -/
theorem claim_C8_amended_witness : Blogs.destory_status = 204 ∧ "Done" = "Done" :=
  claim_C8_amended oneBlogDB "1" "Done" (by decide)

/-- C9: in every reachable state, every stored blog has its creator reference
unset, and it serializes through ShowBlog with creator null. -/
theorem claim_C9_creator_null (db : DB) (fuel : Nat) (b : BlogRow)
    (h : Reachable db) (hb : b ∈ db.blogs) :
    b.creator_id = none ∧
    serializeShowBlog (fuel + 1) db.blogs (db.users.map userView) b =
      some (ShowBlogJson.mk b.title b.body none) := by
  obtain ⟨hc, -, -⟩ := reachable_stateInv db h
  have hcb := hc b hb
  refine ⟨hcb, ?_⟩
  simp [serializeShowBlog, hcb]

/-- C9 witness: the blog created by one POST serializes with creator null. -/
theorem claim_C9_creator_null_witness :
    ({ id := 1, title := "t", body := "b", creator_id := none } : BlogRow).creator_id = none ∧
    serializeShowBlog 1 oneBlogDB.blogs (oneBlogDB.users.map userView)
        { id := 1, title := "t", body := "b", creator_id := none } =
      some (ShowBlogJson.mk "t" "b" none) :=
  claim_C9_creator_null oneBlogDB 0
    { id := 1, title := "t", body := "b", creator_id := none }
    ⟨[Op.createBlog { title := "t", body := "b" }], by decide⟩ (by decide)

/-- C10: a raw id segment that does not parse as an integer is rejected with
a 422 validation error on GET /blog/id and GET /user/id (their handlers
declare id as int), while DELETE and PUT pass the raw string straight to the
handler, whose repository lookup then fails with the repository's own 404. -/
theorem claim_C10_untyped_ids (raw : String) (db : DB) (r : BlogBase)
    (h : parseIntParam raw = none) :
    Routes.getBlogRoute raw db = RouteResult.validationError 422 ∧
    Routes.getUserRoute raw db = RouteResult.validationError 422 ∧
    Routes.deleteBlogRoute raw db = RouteResult.handled (Blogs.destory raw db) ∧
    Routes.putBlogRoute raw r db = RouteResult.handled (Blogs.update raw r db) ∧
    (Blogs.destory raw db).1 =
      DeleteOutcome.notFound
        { status_code := 404, detail := "Blog with id " ++ raw ++ " not found" } := by
  have ha : sqliteTextAffinity raw = none := h
  have hnone : db.blogs.find? (fun b => sqliteIntTextEq b.id raw) = none := by
    rw [List.find?_eq_none]
    intro b hb
    simp [sqliteIntTextEq, ha]
  refine ⟨?_, ?_, rfl, rfl, ?_⟩
  · simp [Routes.getBlogRoute, h]
  · simp [Routes.getUserRoute, h]
  · simp [Blogs.destory, hnone]

/-- C10 witness: the routing difference at the non-integer segment abc. -/
theorem claim_C10_untyped_ids_witness :
    Routes.getBlogRoute "abc" emptyDB = RouteResult.validationError 422 ∧
    Routes.getUserRoute "abc" emptyDB = RouteResult.validationError 422 ∧
    Routes.deleteBlogRoute "abc" emptyDB = RouteResult.handled (Blogs.destory "abc" emptyDB) ∧
    Routes.putBlogRoute "abc" { title := "a", body := "b" } emptyDB =
      RouteResult.handled (Blogs.update "abc" { title := "a", body := "b" } emptyDB) ∧
    (Blogs.destory "abc" emptyDB).1 =
      DeleteOutcome.notFound { status_code := 404, detail := "Blog with id abc not found" } :=
  claim_C10_untyped_ids "abc" emptyDB { title := "a", body := "b" } (by decide)
